import Mathlib

/-!
# Verification of `aws-profile` (`src/awsprofile/__init__.py`)

A shallow embedding of the single-file Python program `awsprofile`, which runs
a subprocess (or emits shell `export` statements) with AWS credentials resolved
from a named profile, injecting a persistent cache for assumed-role
credentials.

Modelling conventions:
* Python dictionaries are association lists with insertion order
  (`List (key × value)`); `dict.update` keeps the position of existing keys
  and appends new ones, like CPython.
* Python values of type `str | None` are `Option String` (`none` = Python
  `None`).
* The external botocore session is a record of the data the program reads
  from it: the scoped config, the resolved credentials and the credential
  provider chain.
* `main` is modelled as a trace of observable events (prints, the spawned
  subprocess, the exit call), so that ordering and exclusivity of the two
  output modes are provable.
-/

namespace AwsProfile

/-- A Python value of type `str | None`: `none` models Python `None`. -/
abbrev Val := Option String

/-- A Python `dict` whose keys are strings and whose values are
`str | None`, in insertion order (used for `os.environ`, the derived
AWS variable mapping, and the child-process environment). -/
abbrev Dict := List (String × Val)

/-- A scoped-config mapping (`session.get_scoped_config()`): string keys to
string values; `config.get(k)` is `List.lookup` (Python `dict.get` returns
`None` for a missing key, i.e. `Option.none`). -/
abbrev Config := List (String × String)

/-- Python `dict.update`: entries whose key is already present keep their
position and receive the new value; entries with fresh keys are appended in
the order they appear in the argument. -/
def Dict.update (d e : Dict) : Dict :=
  (d.map fun kv =>
    match e.lookup kv.1 with
    | some v => (kv.1, v)
    | none => kv)
  ++ e.filter fun kv => (d.lookup kv.1).isNone

/-- Python `dict.pop(k, None)`: remove the entry with key `k`, if any. -/
def Dict.pop (d : Dict) (k : String) : Dict :=
  d.filter fun kv => kv.1 != k

/-- Python `os.getenv(k)` against an environment dictionary: `None` both for
a missing key and for a `None` value (real `os.environ` values are strings,
but the type is uniform here). -/
def os_getenv (env : Dict) (k : String) : Option String :=
  (env.lookup k).join

/-- Python truthiness of a `str | None` value: `None` and the empty string
are falsy, every other string is truthy (`if creds.token:`). -/
def pyTruthy : Val → Bool
  | none => false
  | some s => s != ""

/-- Python `'{}'.format(value)` for a `str | None` value: `None` formats as
the string `"None"`. -/
def pyFormat : Val → String
  | none => "None"
  | some s => s

/-! ## The botocore session, as seen by this program -/

/-- The cache object sitting on a credential provider. `defaultCache` is
whatever botocore installed; the other two are the cache classes named in
the source. -/
inductive CacheKind where
  | defaultCache
  | jsonFileCache
  | fixedJsonFileCache
deriving DecidableEq, Repr

/-- One credential provider of the session's resolver chain: its method name
(botocore's `METHOD`, e.g. `"assume-role"`), its `cache` attribute, and an
abstract field standing for all its remaining state. -/
structure Provider where
  name : String
  cache : CacheKind
  rest : String
deriving DecidableEq, Repr

/-- The resolved credentials (`session.get_credentials()`): access key,
secret key, and an optional token (`None` when the profile has no token). -/
structure Credentials where
  access_key : String
  secret_key : String
  token : Option String
deriving DecidableEq, Repr

/-- The botocore session, restricted to the data this program reads or
writes: the profile it was constructed for, the scoped config, the resolved
credentials, and the credential provider chain. -/
structure Session where
  profile : Option String
  scopedConfig : Config
  credentials : Credentials
  providers : List Provider
deriving DecidableEq, Repr

/-- botocore's `cred_chain.get_provider(name)`: the first provider of the
chain with the given method name, or `none` (botocore raises
`UnknownCredentialError`). -/
def get_provider (chain : List Provider) (name : String) : Option Provider :=
  chain.find? fun p => p.name == name

/-- Setting `provider.cache` on the provider returned by `get_provider`:
the first provider with the given name has its `cache` attribute replaced;
everything else is untouched. -/
def set_provider_cache (chain : List Provider) (name : String)
    (c : CacheKind) : List Provider :=
  match chain with
  | [] => []
  | p :: rest =>
    if p.name == name then { p with cache := c } :: rest
    else p :: set_provider_cache rest name c

/-- `configure_cache(session)` from the source: fetch the session's
`credential_provider` component, get its `assume-role` provider and set that
provider's `cache` to a fresh `FixedJSONFileCache`. `none` models the
`UnknownCredentialError` that `get_provider` raises when the chain has no
`assume-role` provider. -/
def configure_cache (session : Session) : Option Session :=
  match get_provider session.providers "assume-role" with
  | none => none
  | some _ =>
      some { session with
              providers :=
                set_provider_cache session.providers "assume-role"
                  CacheKind.fixedJsonFileCache }

/-! ## `session_vars` and `unset_profile` -/

/-- `session_vars(session)` from the source: build the dict of AWS
environment variables. The region entries hold `config.get('region')`
(possibly `None`); the key entries hold the access and secret keys; when
`creds.token` is truthy, one further entry is added, under
`AWS_SECURITY_TOKEN` when `os.getenv('AWS_TOKEN_TYPE') == 'security'` and
under `AWS_SESSION_TOKEN` otherwise. `osEnv` stands for `os.environ`,
consulted by `os.getenv`. -/
def session_vars (session : Session) (osEnv : Dict) : Dict :=
  let config := session.scopedConfig
  let creds := session.credentials
  let vars_dict : Dict :=
    [("AWS_DEFAULT_REGION", config.lookup "region"),
     ("AWS_REGION", config.lookup "region"),
     ("AWS_ACCESS_KEY_ID", some creds.access_key),
     ("AWS_SECRET_ACCESS_KEY", some creds.secret_key)]
  if pyTruthy creds.token then
    if os_getenv osEnv "AWS_TOKEN_TYPE" == some "security" then
      vars_dict ++ [("AWS_SECURITY_TOKEN", creds.token)]
    else
      vars_dict ++ [("AWS_SESSION_TOKEN", creds.token)]
  else
    vars_dict

/-- `unset_profile(env)` from the source. Its parameter is immediately
shadowed by a fresh copy of `os.environ` (`env = os.environ.copy()`); the two
`pop` calls act on that copy, which is then discarded when the function
returns `None`. The model returns the pair (caller's dict, `os.environ`) as
observable after the call; the shadowed local is computed, faithfully, and
dropped. -/
def unset_profile (env osEnv : Dict) : Dict × Dict :=
  let localEnv := osEnv
  let localEnv := Dict.pop localEnv "AWS_DEFAULT_PROFILE"
  let _ := Dict.pop localEnv "AWS_PROFILE"
  (env, osEnv)

/-! ## Argument parsing -/

/-- The result of `parse_args`: the optional positional `profile`
(default `None`), the `command` remainder, and the `-e` (long form
`--export-mode`) flag. -/
structure Args where
  profile : Option String
  command : List String
  export_mode : Bool
deriving DecidableEq, Repr

/-- Model of the argparse configuration in `parse_args`: `-e` or
`--export-mode` flags may precede the positional `profile`; the first
non-flag argument is the profile; the `argparse.REMAINDER` positional
`command` collects everything after the profile verbatim. With no
(non-flag) arguments the profile defaults to `None` and the command is
empty. -/
def parseArgsFrom : List String → Bool → Args
  | [], e => ⟨none, [], e⟩
  | a :: restArgs, e =>
    if a == "-e" || a == "--export-mode" then parseArgsFrom restArgs true
    else ⟨some a, restArgs, e⟩

/-- `parse_args` from the source, applied to `sys.argv` (argparse drops the
program name, `sys.argv[0]`). -/
def parse_args (argv : List String) : Args :=
  parseArgsFrom (argv.drop 1) false

/-! ## `main` as a trace of events -/

/-- `os.WEXITSTATUS` on Linux: bits 8..15 of the wait status. -/
def WEXITSTATUS (status : Nat) : Nat :=
  (status &&& 0xff00) >>> 8

/-- The observable events of one run of `main`, in order. -/
inductive Event where
  | parseArgs
  | constructSession (profile : Option String)
  | configureCache
  | raiseUnknownProvider
  | deriveVars
  | printLine (s : String)
  | spawn (cmd : List String) (env : Dict)
  | exitWith (code : Nat)
deriving DecidableEq, Repr

/-- `main` from the source, as the trace of its observable events.
`mkSession` models `botocore.session.Session(profile=...)` (all config-file
and STS work is the external library's); `osEnv` models `os.environ`;
`childCode` is the value `subprocess.call` returns for the spawned child.
The steps follow the source order: parse the arguments, construct the
session for `args.profile`, patch its cache (`configure_cache`), derive the
variables (`session_vars`), then either print the export statements or
build the child environment and spawn the command, exiting with
`os.WEXITSTATUS(returncode)`. -/
def mainTrace (argv : List String) (osEnv : Dict)
    (mkSession : Option String → Session) (childCode : Nat) : List Event :=
  let args := parse_args argv
  let session := mkSession args.profile
  match configure_cache session with
  | none =>
      [Event.parseArgs, Event.constructSession args.profile,
       Event.raiseUnknownProvider]
  | some session =>
      let aws_vars := session_vars session osEnv
      [Event.parseArgs, Event.constructSession args.profile,
       Event.configureCache, Event.deriveVars]
      ++
      (if args.export_mode then
        [Event.printLine "unset AWS_DEFAULT_PROFILE;",
         Event.printLine "unset AWS_PROFILE;"]
        ++ aws_vars.map fun kv =>
             Event.printLine ("export " ++ kv.1 ++ "=" ++ pyFormat kv.2 ++ ";")
      else
        let env := osEnv
        let env := (unset_profile env osEnv).1
        let env := Dict.update env aws_vars
        [Event.spawn args.command env, Event.exitWith (WEXITSTATUS childCode)])

/-- Whether an event is a printed line. -/
def Event.isPrint : Event → Bool
  | .printLine _ => true
  | _ => false

/-- Whether an event is the spawning of a subprocess. -/
def Event.isSpawn : Event → Bool
  | .spawn _ _ => true
  | _ => false

/-- Whether an event is an output-phase event (a print, a spawn, or the
exit call), as opposed to one of the setup steps. -/
def Event.isOutput : Event → Bool
  | .printLine _ => true
  | .spawn _ _ => true
  | .exitWith _ => true
  | _ => false

/-- The text of a printed line, if the event is one. -/
def Event.printed : Event → Option String
  | .printLine s => some s
  | _ => none

/-! ## The JSON file cache (`FixedJSONFileCache`) -/

/-- A Python value as handed to `json.dumps` by the credential cache:
the standard JSON-serializable shapes, plus `datetime` objects (which only
the `json_encoder` default can serialize) and arbitrary other objects
(which nothing can). -/
inductive PyVal where
  | null
  | bool (b : Bool)
  | int (n : Int)
  | str (s : String)
  | list (xs : List PyVal)
  | dict (entries : List (String × PyVal))
  | datetime (iso : String)
  | object (descr : String)

/-- Quote a string as a JSON literal (escaping elided: cache keys and
values in scope here contain no special characters). -/
def jsonQuote (s : String) : String := "\"" ++ s ++ "\""

/-- Comma-join rendered JSON items. -/
def joinComma (ss : List String) : String := String.intercalate ", " ss

mutual
/-- Python `str(value)`, as interpolated by `"... %s" % value` in the error
message (modelled loosely; no claim depends on the message text). -/
def PyVal.repr : PyVal → String
  | .null => "None"
  | .bool b => cond b "True" "False"
  | .int n => toString n
  | .str s => s
  | .datetime iso => iso
  | .object descr => descr
  | .list xs => "[" ++ joinComma (PyVal.reprList xs) ++ "]"
  | .dict es => "\x7b" ++ joinComma (PyVal.reprDict es) ++ "\x7d"

/-- `PyVal.repr` over list elements. -/
def PyVal.reprList : List PyVal → List String
  | [] => []
  | v :: vs => PyVal.repr v :: PyVal.reprList vs

/-- `PyVal.repr` over dict entries. -/
def PyVal.reprDict : List (String × PyVal) → List String
  | [] => []
  | (k, v) :: es => (k ++ ": " ++ PyVal.repr v) :: PyVal.reprDict es
end

mutual
/-- Model of Python `json.dumps(value)` (external library): `none` models
the `TypeError`/`ValueError` raised on a non-serializable value. With
`useEncoder = true` it models `json.dumps(value, default=json_encoder)`,
where awscli's `json_encoder` additionally serializes `datetime` objects
(as their isoformat string) and still fails on anything else
non-standard. -/
def dumps (useEncoder : Bool) : PyVal → Option String
  | .null => some "null"
  | .bool b => some (cond b "true" "false")
  | .int n => some (toString n)
  | .str s => some (jsonQuote s)
  | .datetime iso => cond useEncoder (some (jsonQuote iso)) none
  | .object _ => none
  | .list xs =>
      (dumpsList useEncoder xs).map fun ss => "[" ++ joinComma ss ++ "]"
  | .dict es =>
      (dumpsDict useEncoder es).map fun ss =>
        "\x7b" ++ joinComma ss ++ "\x7d"

/-- `dumps` over the elements of a JSON array. -/
def dumpsList (useEncoder : Bool) : List PyVal → Option (List String)
  | [] => some []
  | v :: vs =>
      match dumps useEncoder v, dumpsList useEncoder vs with
      | some s, some ss => some (s :: ss)
      | _, _ => none

/-- `dumps` over the entries of a JSON object. -/
def dumpsDict (useEncoder : Bool) : List (String × PyVal) → Option (List String)
  | [] => some []
  | (k, v) :: es =>
      match dumps useEncoder v, dumpsDict useEncoder es with
      | some s, some ss => some ((jsonQuote k ++ ": " ++ s) :: ss)
      | _, _ => none
end

mutual
/-- Whether a value is free of non-JSON, non-datetime objects: exactly the
values `json_encoder` can handle. -/
def noPyObject : PyVal → Bool
  | .null => true
  | .bool _ => true
  | .int _ => true
  | .str _ => true
  | .datetime _ => true
  | .object _ => false
  | .list xs => noPyObjectList xs
  | .dict es => noPyObjectDict es

/-- `noPyObject` over the elements of a JSON array. -/
def noPyObjectList : List PyVal → Bool
  | [] => true
  | v :: vs => noPyObject v && noPyObjectList vs

/-- `noPyObject` over the entries of a JSON object. -/
def noPyObjectDict : List (String × PyVal) → Bool
  | [] => true
  | (_, v) :: es => noPyObject v && noPyObjectDict es
end

/-- The filesystem state the cache touches: the set of existing directories
and the files with their contents. -/
structure FS where
  dirs : List String
  files : List (String × String)
deriving DecidableEq, Repr

/-- Write (create or truncate-and-overwrite) a file. -/
def FS.setFile (fs : FS) (path content : String) : FS :=
  { fs with files := (path, content) :: fs.files.filter fun kv => kv.1 != path }

/-- `JSONFileCache._convert_cache_key` (from awscli's base class, external):
`os.path.join(working_dir, cache_key + '.json')`. -/
def convert_cache_key (workingDir cache_key : String) : String :=
  workingDir ++ "/" ++ cache_key ++ ".json"

/-- `FixedJSONFileCache.__setitem__` from the source: first serialize with
`json.dumps(value, default=json_encoder)`, turning any `TypeError` or
`ValueError` into a `ValueError`; only on success create the working
directory if missing and write the file. The result is the raised error
message (if any) together with the filesystem after the call; on the error
path the `raise` happens before any filesystem operation, so the filesystem
is returned as it was. -/
def FixedJSONFileCache.setItem (workingDir cache_key : String) (value : PyVal)
    (fs : FS) : Option String × FS :=
  let full_key := convert_cache_key workingDir cache_key
  match dumps true value with
  | none =>
      (some ("Value cannot be cached, must be JSON serializable: "
               ++ PyVal.repr value), fs)
  | some file_content =>
      let fs := if fs.dirs.contains workingDir then fs
                else { fs with dirs := workingDir :: fs.dirs }
      (none, fs.setFile full_key file_content)

/-- `JSONFileCache.__setitem__` of awscli's unextended base class
(external; the source comment records that it "does not serialize
datetime"): the same logic but with plain `json.dumps(value)`, no
`json_encoder` default. -/
def JSONFileCache.setItem (workingDir cache_key : String) (value : PyVal)
    (fs : FS) : Option String × FS :=
  let full_key := convert_cache_key workingDir cache_key
  match dumps false value with
  | none =>
      (some ("Value cannot be cached, must be JSON serializable: "
               ++ PyVal.repr value), fs)
  | some file_content =>
      let fs := if fs.dirs.contains workingDir then fs
                else { fs with dirs := workingDir :: fs.dirs }
      (none, fs.setFile full_key file_content)

/-! ## Concrete sample data (used to instantiate theorems) -/

/-- A typical credential resolver chain: the `assume-role` provider sits
between other providers, carrying the `JSONFileCache` botocore gave it. -/
def sampleProviders : List Provider :=
  [{ name := "env", cache := CacheKind.defaultCache, rest := "env-provider" },
   { name := "assume-role", cache := CacheKind.jsonFileCache,
     rest := "assume-role-provider" },
   { name := "shared-credentials-file", cache := CacheKind.defaultCache,
     rest := "shared-creds-provider" }]

/-- A session whose profile configures no region and whose credentials
carry no token. -/
def noRegionSession : Session :=
  { profile := some "dev"
    scopedConfig := []
    credentials :=
      { access_key := "AKIDEXAMPLE", secret_key := "wJalrXUt", token := none }
    providers := sampleProviders }

/-- A session with a region and token-bearing (assumed-role)
credentials. -/
def tokenSession : Session :=
  { profile := some "dev"
    scopedConfig := [("region", "eu-west-1")]
    credentials :=
      { access_key := "ASIAEXAMPLE", secret_key := "wJalrXUt",
        token := some "FQoGZXIvYXdzEBYaD" }
    providers := sampleProviders }

/-- A sample parent environment, holding a profile variable that the child
should (per the docstring of `unset_profile`) not inherit. -/
def sampleOsEnv : Dict :=
  [("PATH", some "/usr/bin"),
   ("AWS_PROFILE", some "dev"),
   ("AWS_DEFAULT_PROFILE", some "old-default"),
   ("HOME", some "/home/u")]

/-- An empty sample filesystem. -/
def emptyFS : FS := { dirs := [], files := [] }

/-- `sampleProviders` after `configure_cache`: only the `assume-role`
provider's cache has changed. -/
def configuredSampleProviders : List Provider :=
  [{ name := "env", cache := CacheKind.defaultCache, rest := "env-provider" },
   { name := "assume-role", cache := CacheKind.fixedJsonFileCache,
     rest := "assume-role-provider" },
   { name := "shared-credentials-file", cache := CacheKind.defaultCache,
     rest := "shared-creds-provider" }]

/-! ## Helper lemmas: association-list lookup -/

theorem lookup_append {α β : Type} [BEq α] (l₁ l₂ : List (α × β)) (k : α) :
    (l₁ ++ l₂).lookup k = ((l₁.lookup k).orElse fun _ => l₂.lookup k) := by
  induction l₁ with
  | nil => simp [Option.orElse]
  | cons hd tl ih =>
    obtain ⟨a, b⟩ := hd
    cases h : k == a <;>
      simp [List.lookup_cons, h, ih, Option.orElse]

theorem lookup_filter_key {α β : Type} [BEq α] [LawfulBEq α]
    (l : List (α × β)) (p : α → Bool) (k : α) (hk : p k = true) :
    (l.filter fun kv => p kv.1).lookup k = l.lookup k := by
  induction l with
  | nil => simp
  | cons hd tl ih =>
    obtain ⟨a, b⟩ := hd
    by_cases h : k = a
    · subst h
      simp [List.filter_cons, hk, List.lookup_cons]
    · have hba : (k == a) = false := beq_false_of_ne h
      cases hpa : p a <;>
        simp [List.filter_cons, hpa, List.lookup_cons, hba, ih]

theorem lookup_eq_none_of_filter {α β : Type} [BEq α] [LawfulBEq α]
    (l : List (α × β)) (p : α → Bool) (k : α) (hk : p k = false) :
    (l.filter fun kv => p kv.1).lookup k = none := by
  induction l with
  | nil => simp
  | cons hd tl ih =>
    obtain ⟨a, b⟩ := hd
    by_cases h : k = a
    · subst h
      simp [List.filter_cons, hk, ih]
    · have hba : (k == a) = false := beq_false_of_ne h
      cases hpa : p a <;>
        simp [List.filter_cons, hpa, List.lookup_cons, hba, ih]

theorem lookup_map_update (d e : Dict) (k : String) :
    ((d.map fun kv =>
        match e.lookup kv.1 with
        | some v => (kv.1, v)
        | none => kv).lookup k)
      = (d.lookup k).map fun v =>
          match e.lookup k with
          | some w => w
          | none => v := by
  induction d with
  | nil => simp
  | cons hd tl ih =>
    obtain ⟨a, b⟩ := hd
    by_cases h : k = a
    · subst h
      cases he : e.lookup k <;>
        simp [List.lookup_cons, he, ih]
    · have hba : (k == a) = false := beq_false_of_ne h
      cases he : e.lookup a <;>
        simp [List.lookup_cons, hba, he, ih]

theorem Dict.lookup_update_some (d e : Dict) (k : String) (v : Val)
    (h : e.lookup k = some v) :
    (Dict.update d e).lookup k = some v := by
  unfold Dict.update
  rw [lookup_append, lookup_map_update]
  cases hd : d.lookup k with
  | some u => simp [Option.orElse, h]
  | none =>
    have hk : ((d.lookup k).isNone : Bool) = true := by simp [hd]
    simp only [Option.map_none', Option.orElse]
    rw [lookup_filter_key _ (fun key => (d.lookup key).isNone) k hk, h]

theorem Dict.lookup_update_none (d e : Dict) (k : String)
    (h : e.lookup k = none) :
    (Dict.update d e).lookup k = d.lookup k := by
  unfold Dict.update
  rw [lookup_append, lookup_map_update]
  cases hd : d.lookup k with
  | some u => simp [Option.orElse, h]
  | none =>
    have hk : ((d.lookup k).isNone : Bool) = true := by simp [hd]
    simp only [Option.map_none', Option.orElse]
    rw [lookup_filter_key _ (fun key => (d.lookup key).isNone) k hk, h]

/-! ## Helper lemmas: the derived variable mapping -/

theorem pyTruthy_isSome {v : Val} (h : pyTruthy v = true) : v.isSome = true := by
  cases v <;> simp_all [pyTruthy]

theorem session_vars_keys (s : Session) (osEnv : Dict) :
    (session_vars s osEnv).map Prod.fst =
      ["AWS_DEFAULT_REGION", "AWS_REGION",
       "AWS_ACCESS_KEY_ID", "AWS_SECRET_ACCESS_KEY"]
      ++ (if pyTruthy s.credentials.token then
            (if os_getenv osEnv "AWS_TOKEN_TYPE" == some "security" then
              ["AWS_SECURITY_TOKEN"]
            else ["AWS_SESSION_TOKEN"])
          else []) := by
  unfold session_vars
  by_cases ht : pyTruthy s.credentials.token <;>
    by_cases hs : os_getenv osEnv "AWS_TOKEN_TYPE" == some "security" <;>
      simp [ht, hs]

theorem session_vars_lookup_aws_profile (s : Session) (osEnv : Dict) :
    (session_vars s osEnv).lookup "AWS_PROFILE" = none := by
  unfold session_vars
  by_cases ht : pyTruthy s.credentials.token <;>
    by_cases hs : os_getenv osEnv "AWS_TOKEN_TYPE" == some "security" <;>
      simp [ht, hs, List.lookup_cons, lookup_append]

theorem session_vars_lookup_aws_default_profile (s : Session) (osEnv : Dict) :
    (session_vars s osEnv).lookup "AWS_DEFAULT_PROFILE" = none := by
  unfold session_vars
  by_cases ht : pyTruthy s.credentials.token <;>
    by_cases hs : os_getenv osEnv "AWS_TOKEN_TYPE" == some "security" <;>
      simp [ht, hs, List.lookup_cons, lookup_append]

/-! ## Helper lemmas: the provider chain -/

theorem set_provider_cache_length (chain : List Provider) (name : String)
    (c : CacheKind) :
    (set_provider_cache chain name c).length = chain.length := by
  induction chain with
  | nil => rfl
  | cons p rest ih =>
    by_cases h : p.name == name <;> simp [set_provider_cache, h, ih]

theorem set_provider_cache_get (chain : List Provider) (name : String)
    (c : CacheKind) (i : Nat) (hi : i < (set_provider_cache chain name c).length)
    (hi' : i < chain.length) :
    ((set_provider_cache chain name c).get ⟨i, hi⟩).name
        = (chain.get ⟨i, hi'⟩).name ∧
    ((set_provider_cache chain name c).get ⟨i, hi⟩).rest
        = (chain.get ⟨i, hi'⟩).rest ∧
    (((set_provider_cache chain name c).get ⟨i, hi⟩).cache
        = (chain.get ⟨i, hi'⟩).cache ∨
      (((set_provider_cache chain name c).get ⟨i, hi⟩).name = name ∧
       ((set_provider_cache chain name c).get ⟨i, hi⟩).cache = c)) := by
  induction chain generalizing i with
  | nil => exact absurd hi' (by simp)
  | cons p rest ih =>
    by_cases h : p.name == name
    · cases i with
      | zero =>
        refine ⟨by simp [set_provider_cache, h], by simp [set_provider_cache, h], Or.inr ⟨?_, by simp [set_provider_cache, h]⟩⟩
        simpa [set_provider_cache, h] using eq_of_beq h
      | succ n =>
        exact ⟨by simp [set_provider_cache, h], by simp [set_provider_cache, h],
          Or.inl (by simp [set_provider_cache, h])⟩
    · cases i with
      | zero =>
        exact ⟨by simp [set_provider_cache, h], by simp [set_provider_cache, h],
          Or.inl (by simp [set_provider_cache, h])⟩
      | succ n =>
        have hn : n < (set_provider_cache rest name c).length := by
          have := hi
          simpa [set_provider_cache, h] using this
        have hn' : n < rest.length := by
          have := hi'
          simpa using this
        have := ih n hn hn'
        simpa [set_provider_cache, h] using this

theorem get_provider_set_provider_cache (chain : List Provider) (name : String)
    (c : CacheKind) (p : Provider) (h : get_provider chain name = some p) :
    get_provider (set_provider_cache chain name c) name
      = some { p with cache := c } := by
  induction chain with
  | nil => simp [get_provider] at h
  | cons q rest ih =>
    by_cases hq : q.name == name
    · have hp : p = q := by
        simpa [get_provider, List.find?_cons_of_pos, hq] using h.symm
      subst hp
      simp [get_provider, set_provider_cache, hq, List.find?_cons_of_pos]
    · have h' : get_provider rest name = some p := by
        simpa [get_provider, List.find?_cons_of_neg, hq] using h
      have := ih h'
      simpa [get_provider, set_provider_cache, hq, List.find?_cons_of_neg]
        using this

theorem configure_cache_eq {s s' : Session}
    (h : configure_cache s = some s') :
    ∃ p, get_provider s.providers "assume-role" = some p ∧
      s' = { s with
              providers :=
                set_provider_cache s.providers "assume-role"
                  CacheKind.fixedJsonFileCache } := by
  unfold configure_cache at h
  cases hg : get_provider s.providers "assume-role" with
  | none => rw [hg] at h; cases h
  | some p =>
    rw [hg] at h
    exact ⟨p, rfl, (Option.some_inj.mp h).symm⟩

/-! ## Helper lemmas: JSON serialization -/

mutual
theorem dumps_true_isSome : ∀ v : PyVal, (dumps true v).isSome = noPyObject v
  | .null => rfl
  | .bool b => rfl
  | .int n => rfl
  | .str s => rfl
  | .datetime iso => rfl
  | .object d => rfl
  | .list xs => by
    have h := dumpsList_true_isSome xs
    unfold dumps noPyObject
    cases hx : dumpsList true xs <;> simp_all
  | .dict es => by
    have h := dumpsDict_true_isSome es
    unfold dumps noPyObject
    cases hx : dumpsDict true es <;> simp_all

theorem dumpsList_true_isSome :
    ∀ xs : List PyVal, (dumpsList true xs).isSome = noPyObjectList xs
  | [] => rfl
  | v :: vs => by
    have h1 := dumps_true_isSome v
    have h2 := dumpsList_true_isSome vs
    unfold dumpsList noPyObjectList
    cases hv : dumps true v <;> cases hvs : dumpsList true vs <;> simp_all

theorem dumpsDict_true_isSome :
    ∀ es : List (String × PyVal),
      (dumpsDict true es).isSome = noPyObjectDict es
  | [] => rfl
  | (k, v) :: es => by
    have h1 := dumps_true_isSome v
    have h2 := dumpsDict_true_isSome es
    unfold dumpsDict noPyObjectDict
    cases hv : dumps true v <;> cases hes : dumpsDict true es <;> simp_all
end

mutual
theorem noPyObject_of_dumps_false :
    ∀ v : PyVal, (dumps false v).isSome = true → noPyObject v = true
  | .null, _ => rfl
  | .bool b, _ => rfl
  | .int n, _ => rfl
  | .str s, _ => rfl
  | .datetime iso, h => by simp [dumps] at h
  | .object d, h => by simp [dumps] at h
  | .list xs, h => by
    have ih := noPyObjectList_of_dumpsList_false xs
    unfold dumps at h
    unfold noPyObject
    cases hx : dumpsList true xs <;> cases hx' : dumpsList false xs <;>
      simp_all
  | .dict es, h => by
    have ih := noPyObjectDict_of_dumpsDict_false es
    unfold dumps at h
    unfold noPyObject
    cases hx : dumpsDict true es <;> cases hx' : dumpsDict false es <;>
      simp_all

theorem noPyObjectList_of_dumpsList_false :
    ∀ xs : List PyVal, (dumpsList false xs).isSome = true →
      noPyObjectList xs = true
  | [], _ => rfl
  | v :: vs, h => by
    have h1 := noPyObject_of_dumps_false v
    have h2 := noPyObjectList_of_dumpsList_false vs
    unfold dumpsList at h
    unfold noPyObjectList
    cases hv : dumps false v <;> cases hvs : dumpsList false vs <;> simp_all

theorem noPyObjectDict_of_dumpsDict_false :
    ∀ es : List (String × PyVal), (dumpsDict false es).isSome = true →
      noPyObjectDict es = true
  | [], _ => rfl
  | (k, v) :: es, h => by
    have h1 := noPyObject_of_dumps_false v
    have h2 := noPyObjectDict_of_dumpsDict_false es
    unfold dumpsDict at h
    unfold noPyObjectDict
    cases hv : dumps false v <;> cases hes : dumpsDict false es <;> simp_all
end

/-! ## Helper lemmas: the shape of the `main` trace -/

theorem mainTrace_eq (argv : List String) (osEnv : Dict)
    (mkSession : Option String → Session) (childCode : Nat) (s' : Session)
    (hcfg : configure_cache (mkSession (parse_args argv).profile) = some s') :
    mainTrace argv osEnv mkSession childCode =
      [Event.parseArgs, Event.constructSession (parse_args argv).profile,
       Event.configureCache, Event.deriveVars]
      ++
      (if (parse_args argv).export_mode then
        [Event.printLine "unset AWS_DEFAULT_PROFILE;",
         Event.printLine "unset AWS_PROFILE;"]
        ++ (session_vars s' osEnv).map fun kv =>
             Event.printLine ("export " ++ kv.1 ++ "=" ++ pyFormat kv.2 ++ ";")
      else
        [Event.spawn (parse_args argv).command
           (Dict.update osEnv (session_vars s' osEnv)),
         Event.exitWith (WEXITSTATUS childCode)]) := by
  simp only [mainTrace]
  rw [hcfg]
  rfl

theorem WEXITSTATUS_eq_shift_and (n : Nat) :
    WEXITSTATUS n = (n >>> 8) &&& 0xff := by
  unfold WEXITSTATUS
  apply Nat.eq_of_testBit_eq
  intro i
  simp only [Nat.testBit_and, Nat.testBit_shiftRight]
  congr 1
  rw [show (0xff00 : Nat) = 0xff <<< 8 from rfl, Nat.testBit_shiftLeft]
  simp

theorem WEXITSTATUS_eq_zero_of_le (n : Nat) (h : n ≤ 255) :
    WEXITSTATUS n = 0 := by
  rw [WEXITSTATUS_eq_shift_and]
  have hsh : n >>> 8 = 0 := by
    rw [Nat.shiftRight_eq_div_pow]
    exact Nat.div_eq_of_lt (lt_of_le_of_lt h (by norm_num))
  simp [hsh]

theorem filter_isSpawn_printLines (l : List (String × Val))
    (f : String × Val → String) :
    ((l.map fun kv => Event.printLine (f kv)).filter Event.isSpawn) = [] := by
  induction l with
  | nil => rfl
  | cons kv t ih => simp [List.filter_cons, Event.isSpawn, ih]

theorem filterMap_printed_printLines (l : List (String × Val))
    (f : String × Val → String) :
    ((l.map fun kv => Event.printLine (f kv)).filterMap Event.printed)
      = l.map f := by
  induction l with
  | nil => rfl
  | cons kv t ih => simp [List.filterMap_cons, Event.printed, ih]

theorem filterMap_printed_comp (l : List (String × Val))
    (f : String × Val → String) :
    (l.filterMap (Event.printed ∘ fun kv => Event.printLine (f kv)))
      = l.map f := by
  induction l with
  | nil => rfl
  | cons kv t ih => simp [List.filterMap_cons, Event.printed, ih]

/-- The session-builder used to instantiate the `main` theorems. -/
def mkSampleSession : Option String → Session :=
  fun p => { tokenSession with profile := p }

/-- `tokenSession` after its cache has been configured. -/
def cfgdSession : Session :=
  { tokenSession with providers := configuredSampleProviders }

/-! ## Claims -/

/-- **C8.** For every dictionary `env`, `unset_profile(env)` leaves `env`
unchanged: it rebinds its local variable to a fresh copy of `os.environ`
and pops keys from that copy, so the dictionary the caller passed in
retains any `AWS_DEFAULT_PROFILE` and `AWS_PROFILE` entries it had, and
`os.environ` itself is also unchanged. -/
theorem unset_profile_is_noop (env osEnv : Dict) :
    (unset_profile env osEnv).1 = env ∧
    (unset_profile env osEnv).2 = osEnv ∧
    (unset_profile env osEnv).1.lookup "AWS_DEFAULT_PROFILE"
        = env.lookup "AWS_DEFAULT_PROFILE" ∧
    (unset_profile env osEnv).1.lookup "AWS_PROFILE"
        = env.lookup "AWS_PROFILE" :=
  ⟨rfl, rfl, rfl, rfl⟩

/-- **C3 (counterexample).** As stated the claim is false: when the scoped
config has no `region` entry, `config.get('region')` is `None`, so the
mapping's `AWS_DEFAULT_REGION` (and `AWS_REGION`) values are `None`, not
strings. -/
theorem session_vars_not_all_strings :
    ("AWS_DEFAULT_REGION", (none : Val)) ∈ session_vars noRegionSession [] ∧
    ¬ (∀ kv ∈ session_vars noRegionSession [], kv.2.isSome = true) := by
  constructor
  · decide
  · intro h
    have := h ("AWS_DEFAULT_REGION", none) (by decide)
    simp at this

/-- **C3 (amended).** For every session, the derived mapping returned by
`session_vars` is a flat mapping whose keys are exactly
`AWS_DEFAULT_REGION`, `AWS_REGION`, `AWS_ACCESS_KEY_ID`,
`AWS_SECRET_ACCESS_KEY`, plus at most one token variable; every value is a
string, except that the two region entries are `None` when the scoped
config has no `region` key. -/
theorem session_vars_shape (s : Session) (osEnv : Dict) :
    ((session_vars s osEnv).map Prod.fst =
      ["AWS_DEFAULT_REGION", "AWS_REGION",
       "AWS_ACCESS_KEY_ID", "AWS_SECRET_ACCESS_KEY"]
      ++ (if pyTruthy s.credentials.token then
            (if os_getenv osEnv "AWS_TOKEN_TYPE" == some "security" then
              ["AWS_SECURITY_TOKEN"]
            else ["AWS_SESSION_TOKEN"])
          else []))
    ∧ (∀ kv ∈ session_vars s osEnv,
        kv.2.isSome = true ∨
        (kv.2 = none ∧ (kv.1 = "AWS_DEFAULT_REGION" ∨ kv.1 = "AWS_REGION")
          ∧ s.scopedConfig.lookup "region" = none)) := by
  refine ⟨session_vars_keys s osEnv, ?_⟩
  intro kv hkv
  unfold session_vars at hkv
  cases hr : s.scopedConfig.lookup "region" <;>
    by_cases ht : pyTruthy s.credentials.token <;>
      by_cases hs : os_getenv osEnv "AWS_TOKEN_TYPE" == some "security" <;>
        simp [ht, hs, hr] at hkv <;>
        first
        | (rcases hkv with rfl | rfl | rfl | rfl | rfl <;>
            simp [hr, pyTruthy_isSome ht])
        | (rcases hkv with rfl | rfl | rfl | rfl <;> simp [hr])

/-- Witness for C3 (amended), at a session with no configured region. -/
theorem session_vars_shape_witness :
    (session_vars noRegionSession []).map Prod.fst =
      ["AWS_DEFAULT_REGION", "AWS_REGION",
       "AWS_ACCESS_KEY_ID", "AWS_SECRET_ACCESS_KEY"] ∧
    (((none : Val).isSome = true ∨
      ((none : Val) = none ∧
        ("AWS_DEFAULT_REGION" = "AWS_DEFAULT_REGION"
          ∨ "AWS_DEFAULT_REGION" = "AWS_REGION")
        ∧ noRegionSession.scopedConfig.lookup "region" = none))) := by
  refine ⟨?_, ?_⟩
  · have := (session_vars_shape noRegionSession []).1
    simpa [noRegionSession, pyTruthy] using this
  · exact (session_vars_shape noRegionSession []).2
      ("AWS_DEFAULT_REGION", none) (by decide)

/-- **C10.** When the resolved credentials include a (truthy) token,
`session_vars` stores it under `AWS_SECURITY_TOKEN` if the process
environment variable `AWS_TOKEN_TYPE` equals `"security"`, and under
`AWS_SESSION_TOKEN` otherwise; when the credentials have no token, the
mapping contains neither variable. -/
theorem session_vars_token_variable (s : Session) (osEnv : Dict) :
    (pyTruthy s.credentials.token = true →
      ((os_getenv osEnv "AWS_TOKEN_TYPE" = some "security" →
        (session_vars s osEnv).lookup "AWS_SECURITY_TOKEN"
            = some s.credentials.token ∧
        (session_vars s osEnv).lookup "AWS_SESSION_TOKEN" = none)
      ∧ (os_getenv osEnv "AWS_TOKEN_TYPE" ≠ some "security" →
        (session_vars s osEnv).lookup "AWS_SESSION_TOKEN"
            = some s.credentials.token ∧
        (session_vars s osEnv).lookup "AWS_SECURITY_TOKEN" = none)))
    ∧ (pyTruthy s.credentials.token = false →
        (session_vars s osEnv).lookup "AWS_SECURITY_TOKEN" = none ∧
        (session_vars s osEnv).lookup "AWS_SESSION_TOKEN" = none) := by
  unfold session_vars
  by_cases ht : pyTruthy s.credentials.token <;>
    by_cases hs : os_getenv osEnv "AWS_TOKEN_TYPE" == some "security" <;>
      simp_all [List.lookup_cons, lookup_append]

/-- Witness for C10: with `AWS_TOKEN_TYPE=security` in the environment the
token of `tokenSession` lands in `AWS_SECURITY_TOKEN`. -/
theorem session_vars_token_variable_witness :
    (session_vars tokenSession [("AWS_TOKEN_TYPE", some "security")]).lookup
        "AWS_SECURITY_TOKEN" = some tokenSession.credentials.token ∧
    (session_vars tokenSession [("AWS_TOKEN_TYPE", some "security")]).lookup
        "AWS_SESSION_TOKEN" = none :=
  ((session_vars_token_variable tokenSession
      [("AWS_TOKEN_TYPE", some "security")]).1 (by decide)).1 (by decide)

/-- **C5.** For every session, after `configure_cache(session)` returns,
the cache attribute of the session's assume-role credential provider is a
`FixedJSONFileCache`, and no other component of the session is modified:
profile, scoped config and credentials are untouched, the provider chain
keeps its length, and every provider keeps its name and remaining state,
with only a cache set to `FixedJSONFileCache` on the `assume-role`
provider as the possible change. -/
theorem configure_cache_spec (s s' : Session)
    (h : configure_cache s = some s') :
    (get_provider s'.providers "assume-role").map Provider.cache
        = some CacheKind.fixedJsonFileCache
    ∧ s'.profile = s.profile
    ∧ s'.scopedConfig = s.scopedConfig
    ∧ s'.credentials = s.credentials
    ∧ s'.providers.length = s.providers.length
    ∧ ∀ i (hi : i < s'.providers.length) (hi' : i < s.providers.length),
        (s'.providers.get ⟨i, hi⟩).name = (s.providers.get ⟨i, hi'⟩).name ∧
        (s'.providers.get ⟨i, hi⟩).rest = (s.providers.get ⟨i, hi'⟩).rest ∧
        ((s'.providers.get ⟨i, hi⟩).cache = (s.providers.get ⟨i, hi'⟩).cache
          ∨ ((s'.providers.get ⟨i, hi⟩).name = "assume-role" ∧
             (s'.providers.get ⟨i, hi⟩).cache
                = CacheKind.fixedJsonFileCache)) := by
  obtain ⟨p, hp, rfl⟩ := configure_cache_eq h
  refine ⟨?_, rfl, rfl, rfl, ?_, ?_⟩
  · have := get_provider_set_provider_cache s.providers "assume-role"
      CacheKind.fixedJsonFileCache p hp
    simp [this]
  · exact set_provider_cache_length s.providers "assume-role"
      CacheKind.fixedJsonFileCache
  · intro i hi hi'
    exact set_provider_cache_get s.providers "assume-role"
      CacheKind.fixedJsonFileCache i hi hi'

/-- Witness for C5 at a concrete session and chain. -/
theorem configure_cache_spec_witness :
    (get_provider
        ({ tokenSession with
            providers := configuredSampleProviders } : Session).providers
        "assume-role").map Provider.cache
      = some CacheKind.fixedJsonFileCache ∧
    ({ tokenSession with
        providers := configuredSampleProviders } : Session).credentials
      = tokenSession.credentials :=
  ⟨(configure_cache_spec tokenSession
      { tokenSession with providers := configuredSampleProviders }
      (by decide)).1,
   (configure_cache_spec tokenSession
      { tokenSession with providers := configuredSampleProviders }
      (by decide)).2.2.2.1⟩

/-- **C6.** `FixedJSONFileCache.__setitem__` raises `ValueError` if and
only if the value cannot be serialized by `json.dumps` with the
`json_encoder` default; it accepts every value the unextended
`JSONFileCache` accepts, and additionally every value that is standard
JSON plus datetimes; and when it raises, the filesystem is unchanged. -/
theorem fixed_setitem_spec (wd key : String) (v : PyVal) (fs : FS) :
    ((FixedJSONFileCache.setItem wd key v fs).1.isSome = true
        ↔ (dumps true v).isSome = false)
    ∧ ((FixedJSONFileCache.setItem wd key v fs).1.isSome = true →
        (FixedJSONFileCache.setItem wd key v fs).2 = fs)
    ∧ ((JSONFileCache.setItem wd key v fs).1 = none →
        (FixedJSONFileCache.setItem wd key v fs).1 = none)
    ∧ (noPyObject v = true →
        (FixedJSONFileCache.setItem wd key v fs).1 = none) := by
  unfold FixedJSONFileCache.setItem JSONFileCache.setItem
  cases h1 : dumps true v with
  | none =>
    have hno : noPyObject v = false := by
      have := dumps_true_isSome v
      simpa [h1] using this.symm
    cases h2 : dumps false v with
    | none => simp [h1, h2, hno]
    | some s =>
      exfalso
      have : noPyObject v = true :=
        noPyObject_of_dumps_false v (by simp [h2])
      simp [hno] at this
  | some s => simp [h1]

/-- Witness for C6: a non-serializable object is rejected with the
filesystem untouched, while a dict containing a datetime (what the
unextended cache chokes on) is accepted. -/
theorem fixed_setitem_spec_witness :
    (FixedJSONFileCache.setItem "/root/.aws/cli/cache" "k"
        (PyVal.object "botocore-session") emptyFS).1.isSome = true ∧
    (FixedJSONFileCache.setItem "/root/.aws/cli/cache" "k"
        (PyVal.object "botocore-session") emptyFS).2 = emptyFS ∧
    (FixedJSONFileCache.setItem "/root/.aws/cli/cache" "k"
        (PyVal.dict [("Expiration",
            PyVal.datetime "2026-10-12T00:00:00Z")]) emptyFS).1 = none := by
  refine ⟨?_, ?_, ?_⟩
  · exact (fixed_setitem_spec "/root/.aws/cli/cache" "k"
      (PyVal.object "botocore-session") emptyFS).1.mpr (by decide)
  · exact (fixed_setitem_spec "/root/.aws/cli/cache" "k"
      (PyVal.object "botocore-session") emptyFS).2.1 (by decide)
  · exact (fixed_setitem_spec "/root/.aws/cli/cache" "k"
      (PyVal.dict [("Expiration", PyVal.datetime "2026-10-12T00:00:00Z")])
      emptyFS).2.2.2 (by decide)

/-- **C2.** The two output modes are exclusive: with the export flag set,
the program prints shell statements and spawns no subprocess; without it,
it spawns exactly one subprocess running the given command and prints no
lines. -/
theorem modes_exclusive (argv : List String) (osEnv : Dict)
    (mkSession : Option String → Session) (childCode : Nat) (s' : Session)
    (hcfg : configure_cache (mkSession (parse_args argv).profile) = some s') :
    ((parse_args argv).export_mode = true →
      (mainTrace argv osEnv mkSession childCode).filter Event.isSpawn = [] ∧
      (mainTrace argv osEnv mkSession childCode).filter Event.isPrint ≠ [])
    ∧ ((parse_args argv).export_mode = false →
      (∃ env, (mainTrace argv osEnv mkSession childCode).filter Event.isSpawn
          = [Event.spawn (parse_args argv).command env]) ∧
      (mainTrace argv osEnv mkSession childCode).filter Event.isPrint = []) := by
  rw [mainTrace_eq argv osEnv mkSession childCode s' hcfg]
  constructor
  · intro he
    constructor
    · simp [he, List.filter_append, Event.isSpawn,
        filter_isSpawn_printLines]
    · simp [he, List.filter_append, Event.isPrint]
  · intro he
    constructor
    · exact ⟨Dict.update osEnv (session_vars s' osEnv),
        by simp [he, List.filter_append, Event.isSpawn]⟩
    · simp [he, List.filter_append, Event.isPrint]

/-- Witness for C2: a non-export invocation prints nothing. -/
theorem modes_exclusive_witness :
    (mainTrace ["aws-profile", "dev", "env"] sampleOsEnv mkSampleSession
        0).filter Event.isPrint = [] :=
  ((modes_exclusive ["aws-profile", "dev", "env"] sampleOsEnv mkSampleSession
      0 cfgdSession (by decide)).2 (by decide)).2

/-- **C4.** `main` performs its steps in the fixed order: parse arguments,
construct the session for the requested profile (`None` when no profile
argument is given), patch its caching behavior, derive the variable
mapping, and only then produce output; in particular the cache is injected
(step 3) before credentials are resolved (step 4). -/
theorem main_linear_order (argv : List String) (osEnv : Dict)
    (mkSession : Option String → Session) (childCode : Nat) (s' : Session)
    (hcfg : configure_cache (mkSession (parse_args argv).profile) = some s') :
    (mainTrace argv osEnv mkSession childCode).take 4 =
      [Event.parseArgs, Event.constructSession (parse_args argv).profile,
       Event.configureCache, Event.deriveVars]
    ∧ (∀ e ∈ (mainTrace argv osEnv mkSession childCode).drop 4,
        Event.isOutput e = true)
    ∧ (∀ prog : String, (parse_args [prog]).profile = none) := by
  rw [mainTrace_eq argv osEnv mkSession childCode s' hcfg]
  refine ⟨rfl, ?_, fun prog => rfl⟩
  intro e he
  by_cases hm : (parse_args argv).export_mode <;> simp [hm] at he
  · rcases he with rfl | rfl | ⟨a, b, hmem, hEq⟩
    · rfl
    · rfl
    · subst hEq; rfl
  · rcases he with rfl | rfl <;> rfl

/-- Witness for C4 at a concrete invocation. -/
theorem main_linear_order_witness :
    (mainTrace ["aws-profile", "dev", "env"] sampleOsEnv mkSampleSession
        0).take 4 =
      [Event.parseArgs, Event.constructSession (some "dev"),
       Event.configureCache, Event.deriveVars] :=
  (main_linear_order ["aws-profile", "dev", "env"] sampleOsEnv
      mkSampleSession 0 cfgdSession (by decide)).1

/-- **C7.** In export mode the program prints exactly
`unset AWS_DEFAULT_PROFILE;`, `unset AWS_PROFILE;`, then one
`export VAR=value;` line per entry of the derived mapping, and nothing
else (every other trace event is a non-output setup step). -/
theorem export_mode_output (argv : List String) (osEnv : Dict)
    (mkSession : Option String → Session) (childCode : Nat) (s' : Session)
    (hcfg : configure_cache (mkSession (parse_args argv).profile) = some s')
    (hexp : (parse_args argv).export_mode = true) :
    (mainTrace argv osEnv mkSession childCode).filterMap Event.printed =
      ["unset AWS_DEFAULT_PROFILE;", "unset AWS_PROFILE;"]
      ++ (session_vars s' osEnv).map
           (fun kv => "export " ++ kv.1 ++ "=" ++ pyFormat kv.2 ++ ";")
    ∧ (∀ e ∈ mainTrace argv osEnv mkSession childCode,
        Event.isPrint e = false → Event.isOutput e = false) := by
  rw [mainTrace_eq argv osEnv mkSession childCode s' hcfg]
  constructor
  · simp [hexp, List.filterMap_append, Event.printed]
    exact filterMap_printed_comp (session_vars s' osEnv) _
  · intro e he
    simp [hexp] at he
    rcases he with rfl | rfl | rfl | rfl | rfl | rfl | ⟨a, b, hmem, hEq⟩
    · exact fun _ => rfl
    · exact fun _ => rfl
    · exact fun _ => rfl
    · exact fun _ => rfl
    · intro h; exact absurd h (by simp [Event.isPrint])
    · intro h; exact absurd h (by simp [Event.isPrint])
    · subst hEq; intro h; exact absurd h (by simp [Event.isPrint])

/-- Witness for C7 at a concrete export-mode invocation. -/
theorem export_mode_output_witness :
    (mainTrace ["aws-profile", "-e", "dev"] sampleOsEnv mkSampleSession
        0).filterMap Event.printed =
      ["unset AWS_DEFAULT_PROFILE;", "unset AWS_PROFILE;"]
      ++ (session_vars cfgdSession sampleOsEnv).map
           (fun kv => "export " ++ kv.1 ++ "=" ++ pyFormat kv.2 ++ ";") :=
  (export_mode_output ["aws-profile", "-e", "dev"] sampleOsEnv
      mkSampleSession 0 cfgdSession (by decide) (by decide)).1

/-- **C1.** When not in export mode, the child environment is the parent
environment merged with the derived mapping: every key of the derived
mapping has its derived value, and every other parent variable — in
particular `AWS_PROFILE` and `AWS_DEFAULT_PROFILE` — passes through
unchanged. -/
theorem child_env_merge (argv : List String) (osEnv : Dict)
    (mkSession : Option String → Session) (childCode : Nat) (s' : Session)
    (hcfg : configure_cache (mkSession (parse_args argv).profile) = some s')
    (hexp : (parse_args argv).export_mode = false) :
    (mainTrace argv osEnv mkSession childCode).filter Event.isSpawn
      = [Event.spawn (parse_args argv).command
           (Dict.update osEnv (session_vars s' osEnv))]
    ∧ (∀ k v, (session_vars s' osEnv).lookup k = some v →
        (Dict.update osEnv (session_vars s' osEnv)).lookup k = some v)
    ∧ (∀ k, (session_vars s' osEnv).lookup k = none →
        (Dict.update osEnv (session_vars s' osEnv)).lookup k
          = osEnv.lookup k)
    ∧ (Dict.update osEnv (session_vars s' osEnv)).lookup "AWS_PROFILE"
        = osEnv.lookup "AWS_PROFILE"
    ∧ (Dict.update osEnv
        (session_vars s' osEnv)).lookup "AWS_DEFAULT_PROFILE"
        = osEnv.lookup "AWS_DEFAULT_PROFILE" := by
  refine ⟨?_, fun k v h => Dict.lookup_update_some _ _ _ _ h,
    fun k h => Dict.lookup_update_none _ _ _ h,
    Dict.lookup_update_none _ _ _ (session_vars_lookup_aws_profile s' osEnv),
    Dict.lookup_update_none _ _ _
      (session_vars_lookup_aws_default_profile s' osEnv)⟩
  rw [mainTrace_eq argv osEnv mkSession childCode s' hcfg, hexp]
  simp [List.filter_append, Event.isSpawn]

/-- Witness for C1: `AWS_PROFILE=dev` of the parent environment reaches
the child unchanged. -/
theorem child_env_merge_witness :
    (Dict.update sampleOsEnv
        (session_vars cfgdSession sampleOsEnv)).lookup "AWS_PROFILE"
      = sampleOsEnv.lookup "AWS_PROFILE" :=
  (child_env_merge ["aws-profile", "dev", "env"] sampleOsEnv
      mkSampleSession 0 cfgdSession (by decide) (by decide)).2.2.2.1

/-- **C9.** When not in export mode, the wrapper exits with
`os.WEXITSTATUS(subprocess.call(...))`, i.e. `(returncode >> 8) & 0xff`;
since `subprocess.call` already returns the decoded exit code, the wrapper
exits 0 for every child exit code in `0..255`. -/
theorem wrapper_exit_status (argv : List String) (osEnv : Dict)
    (mkSession : Option String → Session) (childCode : Nat) (s' : Session)
    (hcfg : configure_cache (mkSession (parse_args argv).profile) = some s')
    (hexp : (parse_args argv).export_mode = false) :
    (mainTrace argv osEnv mkSession childCode).getLast?
      = some (Event.exitWith (WEXITSTATUS childCode))
    ∧ WEXITSTATUS childCode = (childCode >>> 8) &&& 0xff
    ∧ (childCode ≤ 255 → WEXITSTATUS childCode = 0) := by
  refine ⟨?_, WEXITSTATUS_eq_shift_and childCode,
    WEXITSTATUS_eq_zero_of_le childCode⟩
  rw [mainTrace_eq argv osEnv mkSession childCode s' hcfg, hexp]
  simp

/-- Witness for C9: a child exiting 7 still yields wrapper exit status 0. -/
theorem wrapper_exit_status_witness :
    (mainTrace ["aws-profile", "dev", "false"] sampleOsEnv mkSampleSession
        7).getLast? = some (Event.exitWith (WEXITSTATUS 7))
    ∧ WEXITSTATUS 7 = 0 :=
  ⟨(wrapper_exit_status ["aws-profile", "dev", "false"] sampleOsEnv
      mkSampleSession 7 cfgdSession (by decide) (by decide)).1,
   (wrapper_exit_status ["aws-profile", "dev", "false"] sampleOsEnv
      mkSampleSession 7 cfgdSession (by decide) (by decide)).2.2 (by decide)⟩

end AwsProfile
